import Mathlib

/-!
# Verification of the facial-detection dataset ETL pipeline

A shallow embedding of the repository's Record Builder
(`src/data_to_dynamodb.py`) and Table Client (`src/dynamo.py`), together
with theorems settling the specification's claims about them.

Conventions:
* Python lists become `List`, dicts become association lists, and a
  function that can raise becomes `Option`/`Except`-valued.
* The external store (Amazon DynamoDB, reached through boto3) is modelled
  by a `StoreTable` value plus the documented request/response semantics
  of `get_item` / `put_item` / `batch_get_item`; store behaviour that the
  client merely reacts to (batched-get responses, create/delete outcomes)
  is passed in explicitly as an oracle or outcome argument.
-/

namespace FacialDetection

/-! ## Python primitives used by the source -/

/-- Python `str.find`: the lowest index at which `sub` occurs in `s`,
or `-1` when it does not occur (as used at src/data_to_dynamodb.py:22). -/
def pyFind (s sub : String) : Int :=
  match (List.range (s.length - sub.length + 1)).find?
      (fun i => decide ((s.toList.drop i).take sub.length = sub.toList)) with
  | some i => (i : Int)
  | none => -1

/-- Digits-to-value accumulator for `pyInt`. -/
def digitsVal (l : List Char) : Nat :=
  l.foldl (fun acc c => acc * 10 + (c.toNat - 48)) 0

/-- Python `str.strip` on a character list: drop whitespace from both
ends. -/
def pyStrip (l : List Char) : List Char :=
  ((l.dropWhile Char.isWhitespace).reverse.dropWhile Char.isWhitespace).reverse

/-- Python `int(str)` on the ASCII fragment the dataset uses: surrounding
whitespace stripped, an optional single sign, then a non-empty digit run;
anything else raises `ValueError`, modelled as `none`. -/
def pyInt (s : String) : Option Int :=
  match pyStrip s.toList with
  | [] => none
  | c :: rest =>
    let signed : Int × List Char :=
      if c = '-' then (-1, rest) else if c = '+' then (1, rest) else (1, c :: rest)
    if signed.2 ≠ [] ∧ signed.2.all Char.isDigit then
      some (signed.1 * digitsVal signed.2)
    else none

/-! ## Record Builder (src/data_to_dynamodb.py) -/

/-- Loop body of `split_list_on_element` (src/data_to_dynamodb.py:11-32):
walks the remaining items carrying the current `sublist`; a line in which
the separator occurs at a positive index starts a new group unless the
current group is still empty; the final non-empty group is flushed at the
end. -/
def split_go (sep : String) : List String → List String → List (List String)
  | [], sublist => if sublist = [] then [] else [sublist]
  | item :: rest, sublist =>
    if 0 < pyFind item sep then
      if sublist = [] then split_go sep rest (sublist ++ [item])
      else sublist :: split_go sep rest [item]
    else split_go sep rest (sublist ++ [item])

/-- `split_list_on_element` (src/data_to_dynamodb.py:11-32): split a list
of lines into groups, a new group opening at each line whose separator
occurrence index is positive. -/
def split_list_on_element (input : List String) (sep : String) : List (List String) :=
  split_go sep input []

/-- The item shape built by `map_list_to_json`
(src/data_to_dynamodb.py:34-49): the keys of the returned dict. -/
structure JsonRecord where
  image_name : String
  num_faces : Int
  faces : List String
  train_set : Nat
deriving DecidableEq

/-- `map_list_to_json` (src/data_to_dynamodb.py:34-49): `x[0]` is the
image name (`os.path.join` of a single argument returns it unchanged),
`int(x[1])` the face count, `x[2:]` the face lines, and `train_set`
defaults to 1 (train).  `x[0]`/`x[1]` raise `IndexError` on a group
shorter than 2 and `int` raises `ValueError` on an unparseable count;
both failures are modelled as `none`. -/
def map_list_to_json (x : List String) : Option JsonRecord :=
  match x with
  | name :: count :: faces =>
    match pyInt count with
    | some k => some ⟨name, k, faces, 1⟩
    | none => none
  | _ => none

/-- `modify_value` (src/data_to_dynamodb.py:52-63): set `train_set` to 0. -/
def modify_value (d : JsonRecord) : JsonRecord :=
  ⟨d.image_name, d.num_faces, d.faces, 0⟩

/-! ## Claim C4: grouping is lossless and produces no empty group -/

theorem split_go_ne_nil (sep : String) :
    ∀ (items sublist : List String), ∀ g ∈ split_go sep items sublist, g ≠ [] := by
  intro items
  induction items with
  | nil =>
    intro sublist g hg
    by_cases h : sublist = [] <;> simp [split_go, h] at hg
    subst hg; exact h
  | cons item rest ih =>
    intro sublist g hg
    rw [split_go] at hg
    by_cases hf : 0 < pyFind item sep
    · rw [if_pos hf] at hg
      by_cases hs : sublist = []
      · rw [if_pos hs] at hg
        exact ih _ g hg
      · rw [if_neg hs] at hg
        rcases List.mem_cons.mp hg with h | h
        · subst h; exact hs
        · exact ih _ g h
    · rw [if_neg hf] at hg
      exact ih _ g hg

theorem split_go_join (sep : String) :
    ∀ (items sublist : List String),
      (split_go sep items sublist).flatten = sublist ++ items := by
  intro items
  induction items with
  | nil =>
    intro sublist
    by_cases h : sublist = [] <;> simp [split_go, h]
  | cons item rest ih =>
    intro sublist
    rw [split_go]
    by_cases hf : 0 < pyFind item sep
    · rw [if_pos hf]
      by_cases hs : sublist = []
      · rw [if_pos hs, ih]; simp
      · rw [if_neg hs]; simp [ih]
    · rw [if_neg hf]; simp [ih]

/-- C4: for every input sequence of lines (and any separator),
`split_list_on_element` produces no empty group, and the concatenation of
all produced groups, in order, is exactly the input sequence. -/
theorem C4_group_by_boundary (input : List String) (sep : String) :
    (∀ g ∈ split_list_on_element input sep, g ≠ []) ∧
      (split_list_on_element input sep).flatten = input := by
  constructor
  · exact split_go_ne_nil sep input []
  · simpa using split_go_join sep input []

/-! ## Claim C5: record building from a group of lines -/

/-- C5: a group `[name, count, f1..fn]` whose count line parses as an
integer yields exactly the record with that name, the parsed count, faces
`[f1..fn]`, and the train partition (`train_set = 1`); a group with fewer
than 2 lines fails (Python `IndexError`, the spec's `MalformedGroupError`),
and so does a group whose count line does not parse (`ValueError`). -/
theorem C5_build_record :
    (∀ (name count : String) (faces : List String) (k : Int),
        pyInt count = some k →
        map_list_to_json (name :: count :: faces) = some ⟨name, k, faces, 1⟩) ∧
    (∀ x : List String, x.length < 2 → map_list_to_json x = none) ∧
    (∀ (name count : String) (faces : List String),
        pyInt count = none → map_list_to_json (name :: count :: faces) = none) := by
  refine ⟨?_, ?_, ?_⟩
  · intro name count faces k hk
    simp [map_list_to_json, hk]
  · intro x hx
    match x with
    | [] => rfl
    | [a] => rfl
    | a :: b :: rest => simp at hx; omega
  · intro name count faces hk
    simp [map_list_to_json, hk]

/-- Witness for C5 at concrete groups: a valid group, a one-line group and
a group with an unparseable count, taken from the FDDB ellipse layout. -/
theorem C5_build_record_witness :
    pyInt "2" = some 2 ∧
    map_list_to_json ["2002/07/img_18", "2", "e1", "e2"] =
      some ⟨"2002/07/img_18", 2, ["e1", "e2"], 1⟩ ∧
    map_list_to_json ["2002/07/img_18"] = none ∧
    map_list_to_json ["2002/07/img_18", "two", "e1"] = none :=
  ⟨by decide,
   C5_build_record.1 "2002/07/img_18" "2" ["e1", "e2"] 2 (by decide),
   C5_build_record.2.1 ["2002/07/img_18"] (by decide),
   C5_build_record.2.2 "2002/07/img_18" "two" ["e1"] (by decide)⟩

/-! ## Table Client data model (src/dynamo.py) -/

/-- A DynamoDB attribute value as used by the pipeline: string, number,
or list of strings. -/
inductive AttrVal where
  | s (v : String)
  | n (v : Int)
  | l (v : List String)
deriving DecidableEq

/-- A stored or requested item: an attribute-name/value association list
(a Python dict). -/
abbrev Item := List (String × AttrVal)

/-- First value bound to attribute name `k` in an item. -/
def lookupAttr (it : Item) (k : String) : Option AttrVal :=
  (it.find? (fun p => p.1 == k)).map Prod.snd

/-- The Python exceptions the Table Client can surface: a botocore
`ClientError` carrying the store's error code, a `KeyError` from a dict
access, and the spec's abstract `NotFoundError` (named by the spec's
error taxonomy; the source never defines or raises it — it is declared
here only so claims about it can be stated). -/
inductive PyError where
  | clientError (code : String)
  | keyError
  | notFoundError
deriving DecidableEq

/-! ## `do_batch_get` (src/dynamo.py:12-54) -/

/-- Table name inside a batch request. -/
abbrev TableName := String

/-- The `RequestItems` argument of `batch_get_item`: per-table key lists. -/
abbrev BatchKeys := List (TableName × List Item)

/-- The accumulator `retrieved`: per-table lists of items received. -/
abbrev Retrieved := List (TableName × List Item)

/-- One `batch_get_item` response: the `Responses` mapping (per-table
item lists) and the `UnprocessedKeys` mapping. -/
structure BatchResponse where
  responses : List (TableName × List Item)
  unprocessed : BatchKeys
deriving DecidableEq

/-- Python `retrieved[key] += items`: append to the list under an
existing key; a missing key raises `KeyError`, modelled as `none`. -/
def dictAddTo (d : Retrieved) (t : TableName) (items : List Item) : Option Retrieved :=
  if (d.find? (fun p => p.1 == t)).isSome then
    some (d.map (fun p => if p.1 == t then (p.1, p.2 ++ items) else p))
  else none

/-- The collection loop `for key in response.get("Responses", []):
retrieved[key] += response["Responses"][key]` (src/dynamo.py:35-36). -/
def collectResp (d : Retrieved) : List (TableName × List Item) → Option Retrieved
  | [] => some d
  | (t, items) :: rest => (dictAddTo d t items).bind (fun d' => collectResp d' rest)

/-- `retrieved = {key: [] for key in batch_keys}` (src/dynamo.py:30). -/
def initRetrieved (batchKeys : BatchKeys) : Retrieved :=
  batchKeys.map (fun p => (p.1, ([] : List Item)))

/-- What `do_batch_get` produces besides the accumulator: how many
`batch_get_item` calls were issued and the sequence of `time.sleep`
durations, in order. -/
structure BatchGetResult where
  retrieved : Retrieved
  calls : Nat
  sleeps : List Nat
deriving DecidableEq

/-- `max_tries = 5` (src/dynamo.py:28). -/
def maxTries : Nat := 5

/-- The `while tries < max_tries` loop of `do_batch_get`
(src/dynamo.py:31-52), with the store's response to the `i`-th
`batch_get_item` call supplied by `oracle i`.  The first argument is the
remaining try budget `max_tries - tries`; the loop guard `tries <
max_tries` is `0 < remaining` and the post-increment guard `tries <
max_tries` (src/dynamo.py:47) is `0 < remaining - 1`.  `sleepy` is
`sleepy_time`, doubled and capped at 32 after each sleep
(src/dynamo.py:50); a `KeyError` from `retrieved[key]` propagates. -/
def doBatchGetAux (oracle : Nat → BatchResponse) :
    Nat → BatchKeys → Nat → Retrieved → Nat → List Nat → Except PyError BatchGetResult
  | 0, _, _, retrieved, calls, sleeps => .ok ⟨retrieved, calls, sleeps⟩
  | rem + 1, _, sleepy, retrieved, calls, sleeps =>
    match collectResp retrieved (oracle calls).responses with
    | none => .error .keyError
    | some retrieved' =>
      if 0 < (oracle calls).unprocessed.length then
        if 0 < rem then
          doBatchGetAux oracle rem (oracle calls).unprocessed (min (sleepy * 2) 32)
            retrieved' (calls + 1) (sleeps ++ [sleepy])
        else
          doBatchGetAux oracle rem (oracle calls).unprocessed sleepy
            retrieved' (calls + 1) sleeps
      else
        .ok ⟨retrieved', calls + 1, sleeps⟩

/-- `do_batch_get` (src/dynamo.py:12-54): `tries = 0`, `sleepy_time = 1`,
accumulator initialised per requested table, then the retry loop. -/
def do_batch_get (oracle : Nat → BatchResponse) (batchKeys : BatchKeys) :
    Except PyError BatchGetResult :=
  doBatchGetAux oracle maxTries batchKeys 1 (initRetrieved batchKeys) 0 []

/-- One loop iteration that finds unprocessed keys with budget left:
collect, sleep `sleepy`, double the delay (capped at 32), retry. -/
theorem doBatchGetAux_step {oracle : Nat → BatchResponse} {rem rem' : Nat}
    {bk : BatchKeys} {sleepy : Nat} {retrieved r' : Retrieved} {calls : Nat}
    {sleeps : List Nat}
    (hrem : rem = rem' + 1) (hrem' : 0 < rem')
    (hcol : collectResp retrieved (oracle calls).responses = some r')
    (hun : (oracle calls).unprocessed ≠ []) :
    doBatchGetAux oracle rem bk sleepy retrieved calls sleeps =
      doBatchGetAux oracle rem' (oracle calls).unprocessed (min (sleepy * 2) 32)
        r' (calls + 1) (sleeps ++ [sleepy]) := by
  subst hrem
  rw [doBatchGetAux, hcol]
  simp [List.length_pos.mpr hun, hrem']

/-- The final loop iteration (try budget exhausted after the increment):
collect, no sleep, then fall out of the loop. -/
theorem doBatchGetAux_laststep {oracle : Nat → BatchResponse} {rem : Nat}
    {bk : BatchKeys} {sleepy : Nat} {retrieved r' : Retrieved} {calls : Nat}
    {sleeps : List Nat}
    (hrem : rem = 0 + 1)
    (hcol : collectResp retrieved (oracle calls).responses = some r')
    (hun : (oracle calls).unprocessed ≠ []) :
    doBatchGetAux oracle rem bk sleepy retrieved calls sleeps =
      .ok ⟨r', calls + 1, sleeps⟩ := by
  subst hrem
  rw [doBatchGetAux, hcol]
  simp [List.length_pos.mpr hun, doBatchGetAux]

/-- A loop iteration with no unprocessed keys: collect and break. -/
theorem doBatchGetAux_done {oracle : Nat → BatchResponse} {rem rem' : Nat}
    {bk : BatchKeys} {sleepy : Nat} {retrieved r' : Retrieved} {calls : Nat}
    {sleeps : List Nat}
    (hrem : rem = rem' + 1)
    (hcol : collectResp retrieved (oracle calls).responses = some r')
    (hun : (oracle calls).unprocessed = []) :
    doBatchGetAux oracle rem bk sleepy retrieved calls sleeps =
      .ok ⟨r', calls + 1, sleeps⟩ := by
  subst hrem
  rw [doBatchGetAux, hcol]
  simp [hun]

/-! ## Claims C2 and C3: `do_batch_get` backoff behaviour

In the worst case (unprocessed keys on every attempt) the loop makes 5
calls but sleeps only between consecutive attempts: 4 sleeps, with
delays 1, 2, 4, 8.  The doubled value 16 is computed into `sleepy_time`
after the fourth sleep but never slept, because no sleep follows the
fifth (final) attempt. -/

/-- C2 (amended): if the store reports unprocessed keys on all five
attempts and every response can be folded into the accumulator, then
exactly 5 `batch_get_item` calls are issued, the sleep-delay sequence is
`[1, 2, 4, 8]` (each delay double the previous, capped at 32), and the
accumulated items `r4` gathered from the five responses are returned. -/
theorem C2_backoff_worst_case (oracle : Nat → BatchResponse) (batchKeys : BatchKeys)
    (r0 r1 r2 r3 r4 : Retrieved)
    (hu0 : (oracle 0).unprocessed ≠ []) (hu1 : (oracle 1).unprocessed ≠ [])
    (hu2 : (oracle 2).unprocessed ≠ []) (hu3 : (oracle 3).unprocessed ≠ [])
    (hu4 : (oracle 4).unprocessed ≠ [])
    (h0 : collectResp (initRetrieved batchKeys) (oracle 0).responses = some r0)
    (h1 : collectResp r0 (oracle 1).responses = some r1)
    (h2 : collectResp r1 (oracle 2).responses = some r2)
    (h3 : collectResp r2 (oracle 3).responses = some r3)
    (h4 : collectResp r3 (oracle 4).responses = some r4) :
    do_batch_get oracle batchKeys = .ok ⟨r4, 5, [1, 2, 4, 8]⟩ := by
  rw [do_batch_get, maxTries]
  rw [doBatchGetAux_step (show (5 : Nat) = 4 + 1 from rfl) (by norm_num) h0 hu0]
  rw [doBatchGetAux_step (show (4 : Nat) = 3 + 1 from rfl) (by norm_num) h1 hu1]
  rw [doBatchGetAux_step (show (3 : Nat) = 2 + 1 from rfl) (by norm_num) h2 hu2]
  rw [doBatchGetAux_step (show (2 : Nat) = 1 + 1 from rfl) (by norm_num) h3 hu3]
  rw [doBatchGetAux_laststep (show (1 : Nat) = 0 + 1 from rfl) h4 hu4]
  rfl

/-- A concrete key the ETL would request: composite key of a record. -/
def cKeyItem : Item := [("image_name", AttrVal.s "a.jpg"), ("train_set", AttrVal.n 1)]

/-- A concrete item a batched get returns. -/
def cItem : Item := [("image_name", AttrVal.s "a.jpg"), ("num_faces", AttrVal.n 2)]

/-- A one-table batched-get request. -/
def cKeys : BatchKeys := [("facial-detection-dataset", [cKeyItem])]

/-- The accumulator after `k` responses each carrying one copy of
`cItem`. -/
def cAccum (k : Nat) : Retrieved :=
  [("facial-detection-dataset", List.replicate k cItem)]

/-- A store that answers every call with one item and reports the whole
request unprocessed again. -/
def cOracle : Nat → BatchResponse :=
  fun _ => ⟨[("facial-detection-dataset", [cItem])], cKeys⟩

/-- Counterexample to C2 as stated: on a store that reports unprocessed
keys on every attempt, 5 calls are made but the thread sleeps only four
times, with delays `[1, 2, 4, 8]` — not the claimed sequence
`[1, 2, 4, 8, 16]`. -/
theorem C2_sleep_sequence_cex :
    do_batch_get cOracle cKeys = .ok ⟨cAccum 5, 5, [1, 2, 4, 8]⟩ ∧
      ([1, 2, 4, 8] : List Nat) ≠ [1, 2, 4, 8, 16] := by
  constructor
  · rfl
  · decide

/-- Witness for C2 (amended) at the concrete store `cOracle`. -/
theorem C2_backoff_worst_case_witness :
    (cOracle 0).unprocessed ≠ [] ∧
      collectResp (initRetrieved cKeys) (cOracle 0).responses = some (cAccum 1) ∧
      do_batch_get cOracle cKeys = .ok ⟨cAccum 5, 5, [1, 2, 4, 8]⟩ :=
  ⟨by decide, by decide,
   C2_backoff_worst_case cOracle cKeys (cAccum 1) (cAccum 2) (cAccum 3) (cAccum 4)
     (cAccum 5) (by decide) (by decide) (by decide) (by decide) (by decide)
     (by decide) (by decide) (by decide) (by decide) (by decide)⟩

/-- C3: (a) if the store's first response reports no unprocessed keys,
`do_batch_get` issues exactly one call, never sleeps, and returns the
full result set of that response; (b) if the store reports unprocessed
keys on every attempt, the function returns the accumulator as-is as a
normal (`ok`) value — no error distinguishes this partial result from a
complete one. -/
theorem C3_happy_path_and_silent_partial :
    (∀ (oracle : Nat → BatchResponse) (batchKeys : BatchKeys) (r : Retrieved),
        (oracle 0).unprocessed = [] →
        collectResp (initRetrieved batchKeys) (oracle 0).responses = some r →
        do_batch_get oracle batchKeys = .ok ⟨r, 1, []⟩) ∧
    (∀ (oracle : Nat → BatchResponse) (batchKeys : BatchKeys) (r0 r1 r2 r3 r4 : Retrieved),
        (∀ i, i < 5 → (oracle i).unprocessed ≠ []) →
        collectResp (initRetrieved batchKeys) (oracle 0).responses = some r0 →
        collectResp r0 (oracle 1).responses = some r1 →
        collectResp r1 (oracle 2).responses = some r2 →
        collectResp r2 (oracle 3).responses = some r3 →
        collectResp r3 (oracle 4).responses = some r4 →
        do_batch_get oracle batchKeys = .ok ⟨r4, 5, [1, 2, 4, 8]⟩) := by
  constructor
  · intro oracle batchKeys r hun h
    rw [do_batch_get, maxTries]
    rw [doBatchGetAux_done (show (5 : Nat) = 4 + 1 from rfl) h hun]
  · intro oracle batchKeys r0 r1 r2 r3 r4 hu h0 h1 h2 h3 h4
    rw [do_batch_get, maxTries]
    rw [doBatchGetAux_step (show (5 : Nat) = 4 + 1 from rfl) (by norm_num) h0
      (hu 0 (by norm_num))]
    rw [doBatchGetAux_step (show (4 : Nat) = 3 + 1 from rfl) (by norm_num) h1
      (hu 1 (by norm_num))]
    rw [doBatchGetAux_step (show (3 : Nat) = 2 + 1 from rfl) (by norm_num) h2
      (hu 2 (by norm_num))]
    rw [doBatchGetAux_step (show (2 : Nat) = 1 + 1 from rfl) (by norm_num) h3
      (hu 3 (by norm_num))]
    rw [doBatchGetAux_laststep (show (1 : Nat) = 0 + 1 from rfl) h4
      (hu 4 (by norm_num))]
    rfl

/-- A store whose first response is complete: no unprocessed keys. -/
def hOracle : Nat → BatchResponse :=
  fun _ => ⟨[("facial-detection-dataset", [cItem])], []⟩

/-- Witness for C3 at the concrete stores `hOracle` (happy path: one
call, full result) and `cOracle` (exhausted retries: silent partial
result). -/
theorem C3_happy_path_and_silent_partial_witness :
    ((hOracle 0).unprocessed = [] ∧
      do_batch_get hOracle cKeys = .ok ⟨cAccum 1, 1, []⟩) ∧
    ((∀ i, i < 5 → (cOracle i).unprocessed ≠ []) ∧
      do_batch_get cOracle cKeys = .ok ⟨cAccum 5, 5, [1, 2, 4, 8]⟩) :=
  ⟨⟨by decide,
    C3_happy_path_and_silent_partial.1 hOracle cKeys (cAccum 1) (by decide) (by decide)⟩,
   ⟨by intro i hi; simp [cOracle, cKeys],
    C3_happy_path_and_silent_partial.2 cOracle cKeys (cAccum 1) (cAccum 2) (cAccum 3)
      (cAccum 4) (cAccum 5) (by intro i hi; simp [cOracle, cKeys]) (by decide) (by decide) (by decide)
      (by decide) (by decide)⟩⟩

/-! ## The partitioned key-value store (external collaborator)

Modelled from the store semantics the spec's External Interfaces section
records and boto3/DynamoDB document: a table has a declared composite
key schema; `put_item` stores an item under its key-attribute values;
`get_item` demands a key naming exactly the schema's two key attributes
and otherwise rejects the call with a `ValidationException` client
error. -/

/-- A store table: declared partition (HASH) and sort (RANGE) key
attribute names, plus the stored items. -/
structure StoreTable where
  hashKey : String
  rangeKey : String
  items : List Item
deriving DecidableEq

/-- The table `DynamoDBTable.create_table` brings into being
(src/dynamo.py:105-119): `KeySchema` partition key `train_set`, sort key
`image_name`, no items yet. -/
def newFaceTable : StoreTable :=
  ⟨"train_set", "image_name", []⟩

/-- Store-side `put_item`: the item must supply both key attributes; it
replaces any stored item with the same composite key. -/
def put_item (t : StoreTable) (it : Item) : Except PyError StoreTable :=
  match lookupAttr it t.hashKey, lookupAttr it t.rangeKey with
  | some hv, some rv =>
    .ok ⟨t.hashKey, t.rangeKey,
      t.items.filter
        (fun j => !(decide (lookupAttr j t.hashKey = some hv) &&
          decide (lookupAttr j t.rangeKey = some rv))) ++ [it]⟩
  | _, _ => .error (.clientError "ValidationException")

/-- `DynamoDBTable.write_batch` (src/dynamo.py:175-200): puts every entry
through the batch writer (which chunks, buffers and retries transparently
— the durable effect is the sequence of puts); a `ClientError` is logged
and re-raised. -/
def write_batch (t : StoreTable) (entries : List Item) : Except PyError StoreTable :=
  match entries with
  | [] => .ok t
  | e :: rest =>
    match put_item t e with
    | .ok t' => write_batch t' rest
    | .error err => .error err

/-- Store-side `get_item`: the request key must consist of exactly the
two schema key attributes (a key naming any other attribute is rejected
with `ValidationException`); on success the response carries the matching
item, or no `Item` field at all when nothing matches. -/
def get_item (t : StoreTable) (key : Item) : Except PyError (Option Item) :=
  if key.length = 2 ∧ (lookupAttr key t.hashKey).isSome = true ∧
      (lookupAttr key t.rangeKey).isSome = true then
    .ok (t.items.find?
      (fun j => decide (lookupAttr j t.hashKey = lookupAttr key t.hashKey) &&
        decide (lookupAttr j t.rangeKey = lookupAttr key t.rangeKey)))
  else .error (.clientError "ValidationException")

/-- The response handling of `DynamoDBTable.get_entry`
(src/dynamo.py:230-242): a `ClientError` from the store is logged and
re-raised; otherwise the code returns `response["Item"]`, and when the
response has no `Item` field that dict access raises `KeyError`. -/
def get_entry_handle (resp : Except PyError (Option Item)) : Except PyError Item :=
  match resp with
  | .error e => .error e
  | .ok (some it) => .ok it
  | .ok none => .error .keyError

/-- `DynamoDBTable.get_entry` (src/dynamo.py:222-242): issues `get_item`
with `Key={"image_name": image_name, "is_train": is_train}` and returns
`response["Item"]`. -/
def get_entry (t : StoreTable) (image_name : String) (is_train : Int) :
    Except PyError Item :=
  get_entry_handle (get_item t [("image_name", .s image_name), ("is_train", .n is_train)])

/-! ## Claim C1: write/get round-trip -/

theorem put_item_schema {t t' : StoreTable} {it : Item}
    (h : put_item t it = .ok t') :
    t'.hashKey = t.hashKey ∧ t'.rangeKey = t.rangeKey := by
  rw [put_item] at h
  rcases hh : lookupAttr it t.hashKey with _ | hv <;>
      rcases hr : lookupAttr it t.rangeKey with _ | rv <;>
      rw [hh, hr] at h
  · cases h
  · cases h
  · cases h
  · cases h
    exact ⟨rfl, rfl⟩

theorem write_batch_schema {t t' : StoreTable} {entries : List Item}
    (h : write_batch t entries = .ok t') :
    t'.hashKey = t.hashKey ∧ t'.rangeKey = t.rangeKey := by
  induction entries generalizing t with
  | nil => rw [write_batch] at h; cases h; exact ⟨rfl, rfl⟩
  | cons e rest ih =>
    rw [write_batch] at h
    rcases hp : put_item t e with err | t₁ <;> rw [hp] at h
    · cases h
    · obtain ⟨h1, h2⟩ := ih h
      obtain ⟨h3, h4⟩ := put_item_schema hp
      exact ⟨h1.trans h3, h2.trans h4⟩

/-- C1 (code bug exhibit): on any table obtained by writing any batch of
records into the table `create_table` makes — key schema partition key
`train_set`, sort key `image_name` — every `get_entry` call is rejected
by the store with a `ValidationException`, because `get_entry` builds its
key from the attribute names `image_name` and `is_train`
(src/dynamo.py:231), and `is_train` is not a key attribute of the schema.
No written record is ever retrievable, contradicting the round-trip
claim. -/
theorem C1_roundtrip_key_mismatch (entries : List Item) (t : StoreTable)
    (image_name : String) (is_train : Int)
    (hw : write_batch newFaceTable entries = .ok t) :
    get_entry t image_name is_train = .error (.clientError "ValidationException") := by
  obtain ⟨hh, hr⟩ := write_batch_schema hw
  rw [get_entry, get_item, hh, hr, if_neg, get_entry_handle]
  intro hcond
  have h2 := hcond.2.1
  rw [show newFaceTable.hashKey = "train_set" from rfl] at h2
  simp [lookupAttr, List.find?] at h2

/-- Witness for C1's exhibit: a concrete FDDB record is written into the
fresh table, and `get_entry` with its own composite key is rejected. -/
theorem C1_roundtrip_key_mismatch_witness :
    write_batch newFaceTable
        [[("image_name", AttrVal.s "2002/07/img_464"), ("num_faces", AttrVal.n 1),
          ("faces", AttrVal.l ["458 500"]), ("train_set", AttrVal.n 1)]] =
      .ok ⟨"train_set", "image_name",
        [[("image_name", AttrVal.s "2002/07/img_464"), ("num_faces", AttrVal.n 1),
          ("faces", AttrVal.l ["458 500"]), ("train_set", AttrVal.n 1)]]⟩ ∧
    get_entry
        ⟨"train_set", "image_name",
          [[("image_name", AttrVal.s "2002/07/img_464"), ("num_faces", AttrVal.n 1),
            ("faces", AttrVal.l ["458 500"]), ("train_set", AttrVal.n 1)]]⟩
        "2002/07/img_464" 1 = .error (.clientError "ValidationException") :=
  ⟨by rfl,
   C1_roundtrip_key_mismatch
     [[("image_name", AttrVal.s "2002/07/img_464"), ("num_faces", AttrVal.n 1),
       ("faces", AttrVal.l ["458 500"]), ("train_set", AttrVal.n 1)]]
     ⟨"train_set", "image_name",
       [[("image_name", AttrVal.s "2002/07/img_464"), ("num_faces", AttrVal.n 1),
         ("faces", AttrVal.l ["458 500"]), ("train_set", AttrVal.n 1)]]⟩
     "2002/07/img_464" 1 (by rfl)⟩

/-! ## Claim C8: `get_entry` on an absent key -/

/-- Counterexample to C8 as stated: when the store's response carries no
item, `get_entry`'s response handling raises `KeyError` (the uncaught
dict access `response["Item"]`), not the spec's `NotFoundError` negative
result. -/
theorem C8_absent_key_cex :
    get_entry_handle (.ok none) ≠ .error PyError.notFoundError := by
  intro h
  cases h

/-- C8 (amended): for every store response carrying no item, `get_entry`
fails by raising `KeyError` from the `response["Item"]` dict access — an
uncaught exception, not a designed `NotFoundError` negative-result
path. -/
theorem C8_absent_key_keyerror (t : StoreTable) (image_name : String) (is_train : Int)
    (h : get_item t [("image_name", .s image_name), ("is_train", .n is_train)] = .ok none) :
    get_entry t image_name is_train = .error PyError.keyError := by
  rw [get_entry, h, get_entry_handle]

/-- Witness for C8 (amended) on a hypothetical table whose schema happens
to match `get_entry`'s key names and which holds no items: the store
reports no item and the call raises `KeyError`. -/
theorem C8_absent_key_keyerror_witness :
    get_item (StoreTable.mk "is_train" "image_name" [])
        [("image_name", .s "missing"), ("is_train", .n 1)] = .ok none ∧
    get_entry (StoreTable.mk "is_train" "image_name" []) "missing" 1 =
      .error PyError.keyError :=
  ⟨by rfl, C8_absent_key_keyerror (StoreTable.mk "is_train" "image_name" []) "missing" 1 (by rfl)⟩

/-! ## Table lifecycle state machine (src/dynamo.py:60-145) -/

/-- The client's only state: the member variable `self.table`
(src/dynamo.py:68) — `none` while unbound (the `Unbound`/`Checked-Absent`
states), `some t` once a table handle is bound. -/
structure DynamoDBTable where
  table : Option StoreTable
deriving DecidableEq

/-- `DynamoDBTable.create_table` (src/dynamo.py:97-130).  The store either
rejects creation (`createErr = some e`: the `ClientError` is logged and
re-raised before `self.table` is assigned) or accepts, in which case the
fresh `train_set`/`image_name` table is bound and `wait_until_exists`
blocks (its own failure, `waitErr`, strikes after the handle is already
bound).  Returns the raised-or-returned value and the client state. -/
def create_table (st : DynamoDBTable) (createErr : Option PyError)
    (waitErr : Option PyError) : Except PyError StoreTable × DynamoDBTable :=
  match createErr with
  | some e => (.error e, st)
  | none =>
    match waitErr with
    | some e => (.error e, ⟨some newFaceTable⟩)
    | none => (.ok newFaceTable, ⟨some newFaceTable⟩)

/-- `DynamoDBTable.delete_table` (src/dynamo.py:132-145): `self.table.delete()`
then `self.table = None`; a `ClientError` from the delete is logged and
re-raised before the member is cleared. -/
def delete_table (st : DynamoDBTable) (deleteErr : Option PyError) :
    Except PyError Unit × DynamoDBTable :=
  match deleteErr with
  | some e => (.error e, st)
  | none => (.ok (), ⟨none⟩)

/-! ## Claim C9: `create_table` atomicity on store rejection -/

/-- C9: starting from `Checked-Absent` (no table handle bound), when the
store rejects creation with error `e`, `create_table` re-raises exactly
`e`, the client state is unchanged, and in particular the table handle
stays unbound. -/
theorem C9_create_table_atomic (st : DynamoDBTable) (e : PyError)
    (waitErr : Option PyError) (habsent : st.table = none) :
    create_table st (some e) waitErr = (.error e, st) ∧
      (create_table st (some e) waitErr).2.table = none := by
  exact ⟨rfl, habsent⟩

/-- Witness for C9: a fresh client (`Checked-Absent`) whose creation the
store rejects with `ResourceInUseException` stays unbound. -/
theorem C9_create_table_atomic_witness :
    (DynamoDBTable.mk none).table = none ∧
      create_table ⟨none⟩ (some (.clientError "ResourceInUseException")) none =
        (.error (.clientError "ResourceInUseException"), ⟨none⟩) ∧
      (create_table ⟨none⟩ (some (.clientError "ResourceInUseException")) none).2.table = none :=
  ⟨rfl,
   (C9_create_table_atomic ⟨none⟩ (.clientError "ResourceInUseException") none rfl).1,
   (C9_create_table_atomic ⟨none⟩ (.clientError "ResourceInUseException") none rfl).2⟩

/-! ## Claim C10: `delete_table` atomicity on store failure -/

/-- C10: with a table handle bound, a `ClientError` from the store's
delete call is re-raised and the handle is left bound to the same table;
and the handle is reset to unbound exactly when the delete succeeds. -/
theorem C10_delete_table_atomic (st : DynamoDBTable) (h : StoreTable)
    (code : String) (hbound : st.table = some h) :
    (delete_table st (some (.clientError code)) =
        (.error (.clientError code), st) ∧
      (delete_table st (some (.clientError code))).2.table = some h) ∧
    (∀ deleteErr : Option PyError,
      (delete_table st deleteErr).2.table = none ↔ deleteErr = none) := by
  refine ⟨⟨rfl, hbound⟩, ?_⟩
  intro deleteErr
  match deleteErr with
  | none => simp [delete_table]
  | some e => simp [delete_table, hbound]

/-- Witness for C10: a client bound to the fresh table; a rejected delete
leaves it bound, a successful delete unbinds it. -/
theorem C10_delete_table_atomic_witness :
    (DynamoDBTable.mk (some newFaceTable)).table = some newFaceTable ∧
      (delete_table ⟨some newFaceTable⟩
          (some (.clientError "ResourceNotFoundException")) =
        (.error (.clientError "ResourceNotFoundException"), ⟨some newFaceTable⟩)) ∧
      ((delete_table ⟨some newFaceTable⟩ none).2.table = none ↔ (none : Option PyError) = none) :=
  ⟨rfl,
   (C10_delete_table_atomic ⟨some newFaceTable⟩ newFaceTable
     "ResourceNotFoundException" rfl).1.1,
   (C10_delete_table_atomic ⟨some newFaceTable⟩ newFaceTable
     "ResourceNotFoundException" rfl).2 none⟩

/-! ## Train/test split (src/data_to_dynamodb.py:116-125)

`train_test_split(flat_json_list, test_size=0.2)` is called with **no**
`random_state`.  The library draws a permutation of the index range from
the process-global, unseeded RNG, takes the first `ceil(test_size * n)`
indices as the test set and the remaining indices as the train set.  The
permutation the RNG produced is passed in explicitly (`perm`), since it
is the only influence the RNG has on the result. -/

/-- Select the records at the given indices (an out-of-range index
selects nothing; the library only ever produces in-range indices). -/
def pick (l : List α) (idxs : List Nat) : List α :=
  idxs.filterMap (fun i => l[i]?)

/-- Modelled from the external library `sklearn.model_selection.train_test_split`
as invoked at src/data_to_dynamodb.py:117: given the permutation `perm`
drawn from the RNG and the test-set size `nTest`, the test set is the
records at the first `nTest` permuted indices and the train set the
records at the rest.  Returns `(train, test)`. -/
def train_test_split (l : List α) (nTest : Nat) (perm : List Nat) :
    List α × List α :=
  (pick l (perm.drop nTest), pick l (perm.take nTest))

/-- The `__main__` split-and-tag block (src/data_to_dynamodb.py:117-119):
split, set `train_set = 0` on every test record via `modify_value`, then
`train.extend(test)`. -/
def etl_split (records : List JsonRecord) (nTest : Nat) (perm : List Nat) :
    List JsonRecord :=
  (train_test_split records nTest perm).1 ++
    ((train_test_split records nTest perm).2.map modify_value)

/-! ## Claim C6: determinism under a seed -/

/-- A first concrete record. -/
def rA : JsonRecord := ⟨"2002/07/img_18", 2, ["eA1", "eA2"], 1⟩

/-- A second concrete record. -/
def rB : JsonRecord := ⟨"2002/08/img_19", 1, ["eB1"], 1⟩

/-- C6 (code bug exhibit): the split's outcome is a function of the
permutation drawn from the process-global, unseeded RNG — the call at
src/data_to_dynamodb.py:117 passes no `random_state`, so no `rng_seed`
exists that could pin this draw.  Both `[0, 1]` and `[1, 0]` are
permutations of the index range that the global RNG can produce for the
same input, and they yield different partition assignments. -/
theorem C6_unseeded_rng_dependence :
    ([0, 1] : List Nat).Perm (List.range 2) ∧
      ([1, 0] : List Nat).Perm (List.range 2) ∧
      etl_split [rA, rB] 1 [0, 1] ≠ etl_split [rA, rB] 1 [1, 0] := by
  refine ⟨by decide, by decide, by decide⟩

/-! ## Claim C7: split-and-tag postcondition -/

theorem pick_map (f : α → β) (l : List α) (idxs : List Nat) :
    (pick l idxs).map f = pick (l.map f) idxs := by
  rw [pick, pick, List.map_filterMap]
  simp

theorem pick_append (l : List α) (xs ys : List Nat) :
    pick l (xs ++ ys) = pick l xs ++ pick l ys :=
  List.filterMap_append xs ys _

theorem pick_perm (l : List α) {xs ys : List Nat} (h : xs.Perm ys) :
    (pick l xs).Perm (pick l ys) :=
  h.filterMap _

theorem pick_range (l : List α) : pick l (List.range l.length) = l := by
  induction l with
  | nil => rfl
  | cons a t ih =>
    rw [List.length_cons, List.range_succ_eq_map, pick, List.filterMap_cons]
    simp only [List.getElem?_cons_zero, List.filterMap_map, Function.comp_def,
      List.getElem?_cons_succ]
    rw [show (fun i => t[i]?) = fun i => t[i]? from rfl]
    rw [pick] at ih
    rw [ih]

theorem pick_length (l : List α) (idxs : List Nat)
    (h : ∀ i ∈ idxs, i < l.length) : (pick l idxs).length = idxs.length := by
  induction idxs with
  | nil => rfl
  | cons i rest ih =>
    have hi : i < l.length := h i (List.mem_cons_self i rest)
    rw [pick, List.filterMap_cons, List.getElem?_eq_getElem hi]
    rw [pick] at ih
    simp [ih (fun j hj => h j (List.mem_cons_of_mem i hj))]

theorem pick_subset (l : List α) (idxs : List Nat) :
    ∀ a ∈ pick l idxs, a ∈ l := by
  intro a ha
  rw [pick, List.mem_filterMap] at ha
  obtain ⟨i, _, hi⟩ := ha
  exact List.getElem?_mem hi

/-- The image names of the split output are a permutation of the input's
image names, for any permutation `perm` of the index range. -/
theorem etl_split_names_perm (records : List JsonRecord) (nTest : Nat)
    (perm : List Nat) (hperm : perm.Perm (List.range records.length)) :
    ((etl_split records nTest perm).map JsonRecord.image_name).Perm
      (records.map JsonRecord.image_name) := by
  rw [etl_split, train_test_split]
  rw [List.map_append, List.map_map]
  rw [show JsonRecord.image_name ∘ modify_value = JsonRecord.image_name from rfl]
  rw [pick_map, pick_map, ← pick_append]
  have h1 : (perm.drop nTest ++ perm.take nTest).Perm (List.range records.length) := by
    refine List.Perm.trans List.perm_append_comm ?_
    rw [List.take_append_drop]
    exact hperm
  have h2 := pick_perm (records.map JsonRecord.image_name) h1
  refine h2.trans ?_
  have h3 : List.range records.length =
      List.range (records.map JsonRecord.image_name).length := by simp
  rw [h3, pick_range]

/-- C7: with `perm` the index permutation the library drew,
`nTest = ceil(test_fraction * n)` the test size it computes, a duplicate
free input (the caller's asserted invariant) all tagged `train`:
(1) the test partition has exactly `nTest` records, which is within
rounding tolerance (at most 1) of `round(test_fraction * n)`;
(2) the combined output's image names are a permutation of the input's —
no record dropped or duplicated, equal as sets;
(3) the train and test partitions' image-name sets do not overlap;
(4) every test record is tagged `train_set = 0`; and
(5) every train record is tagged `train_set = 1`. -/
theorem C7_split_and_tag_postcondition (records : List JsonRecord)
    (fraction : ℚ) (perm : List Nat) (nTest : Nat)
    (hperm : perm.Perm (List.range records.length))
    (hfrac0 : 0 ≤ fraction) (hfrac1 : fraction ≤ 1)
    (hn : nTest = Nat.ceil (fraction * records.length))
    (hnodup : (records.map JsonRecord.image_name).Nodup)
    (htrain : ∀ r ∈ records, r.train_set = 1) :
    ((train_test_split records nTest perm).2.length = nTest ∧
      |(nTest : ℚ) - (round (fraction * records.length) : ℤ)| ≤ 1) ∧
    ((etl_split records nTest perm).map JsonRecord.image_name).Perm
      (records.map JsonRecord.image_name) ∧
    List.Disjoint
      ((train_test_split records nTest perm).1.map JsonRecord.image_name)
      (((train_test_split records nTest perm).2.map modify_value).map
        JsonRecord.image_name) ∧
    (∀ r ∈ (train_test_split records nTest perm).2.map modify_value,
      r.train_set = 0) ∧
    (∀ r ∈ (train_test_split records nTest perm).1, r.train_set = 1) := by
  have hlen : perm.length = records.length :=
    hperm.length_eq.trans (List.length_range _)
  have hmem : ∀ i ∈ perm, i < records.length := fun i hi =>
    List.mem_range.mp (hperm.mem_iff.mp hi)
  have hx0 : (0 : ℚ) ≤ fraction * records.length :=
    mul_nonneg hfrac0 (Nat.cast_nonneg _)
  have hTle : nTest ≤ records.length := by
    rw [hn, Nat.ceil_le]
    calc fraction * (records.length : ℚ) ≤ 1 * records.length :=
          mul_le_mul_of_nonneg_right hfrac1 (Nat.cast_nonneg _)
      _ = records.length := one_mul _
  have hnames := etl_split_names_perm records nTest perm hperm
  refine ⟨⟨?_, ?_⟩, hnames, ?_, ?_, ?_⟩
  · -- size of the test partition
    rw [train_test_split]
    rw [pick_length records _ (fun i hi => hmem i (List.mem_of_mem_take hi))]
    rw [List.length_take, hlen]
    exact Nat.min_eq_left hTle
  · -- within rounding tolerance of round(fraction * n)
    have hge : fraction * records.length ≤ (nTest : ℚ) := by
      rw [hn]; exact Nat.le_ceil _
    have hlt : (nTest : ℚ) < fraction * records.length + 1 := by
      rw [hn]; exact Nat.ceil_lt_add_one hx0
    have habs := abs_sub_round (fraction * (records.length : ℚ))
    rw [abs_le] at habs
    have h1 : ((nTest : ℤ) - round (fraction * (records.length : ℚ)) : ℤ) < 2 := by
      have : ((nTest : ℤ) : ℚ) - ((round (fraction * (records.length : ℚ)) : ℤ) : ℚ) < 2 := by
        push_cast
        linarith [habs.1]
      exact_mod_cast this
    have h2 : (-2 : ℤ) < ((nTest : ℤ) - round (fraction * (records.length : ℚ)) : ℤ) := by
      have : (-2 : ℚ) < ((nTest : ℤ) : ℚ) - ((round (fraction * (records.length : ℚ)) : ℤ) : ℚ) := by
        push_cast
        linarith [habs.2]
      exact_mod_cast this
    have hz : |(nTest : ℤ) - round (fraction * (records.length : ℚ))| ≤ 1 := by
      rw [abs_le]; omega
    exact_mod_cast hz
  · -- disjointness of the partitions' image names
    have hnd : ((etl_split records nTest perm).map JsonRecord.image_name).Nodup :=
      hnames.nodup_iff.mpr hnodup
    rw [etl_split, List.map_append] at hnd
    exact (List.nodup_append.mp hnd).2.2
  · -- every test record is tagged 0
    intro r hr
    obtain ⟨s, _, rfl⟩ := List.mem_map.mp hr
    rfl
  · -- every train record keeps its tag 1
    intro r hr
    exact htrain r (pick_subset records _ r hr)

/-- Witness for C7: two records, `test_fraction = 1/2`, hence one test
record, with the RNG's permutation `[1, 0]`. -/
theorem C7_split_and_tag_postcondition_witness :
    (([1, 0] : List Nat).Perm (List.range 2) ∧
      (1 : Nat) = Nat.ceil ((1 / 2 : ℚ) * (([rA, rB] : List JsonRecord).length : ℚ))) ∧
    (((train_test_split [rA, rB] 1 [1, 0]).2.length = 1 ∧
      |((1 : Nat) : ℚ) - (round ((1 / 2 : ℚ) * (([rA, rB] : List JsonRecord).length : ℚ)) : ℤ)| ≤ 1) ∧
    ((etl_split [rA, rB] 1 [1, 0]).map JsonRecord.image_name).Perm
      ([rA, rB].map JsonRecord.image_name) ∧
    List.Disjoint
      ((train_test_split [rA, rB] 1 [1, 0]).1.map JsonRecord.image_name)
      (((train_test_split [rA, rB] 1 [1, 0]).2.map modify_value).map
        JsonRecord.image_name) ∧
    (∀ r ∈ (train_test_split [rA, rB] 1 [1, 0]).2.map modify_value,
      r.train_set = 0) ∧
    (∀ r ∈ (train_test_split [rA, rB] 1 [1, 0]).1, r.train_set = 1)) :=
  ⟨⟨by decide, by norm_num⟩,
   C7_split_and_tag_postcondition [rA, rB] (1 / 2) [1, 0] 1 (by decide)
     (by norm_num) (by norm_num) (by norm_num) (by decide)
     (by intro r hr; fin_cases hr <;> rfl)⟩

end FacialDetection
